import Mathlib

/-!
# Verification of src/ipl_analysis.py

A shallow embedding of the IPL exploratory-data-analysis script.  The two
pandas DataFrames are modelled as follows:

* the deliveries table is a list of `Delivery` records (only the columns the
  analysis steps read are modelled);
* the matches table is a `MatchTable`, column-oriented because the script
  tests for column presence (`id`, `match_id`, `date`, `season`); a column
  that may be absent is an `Option` of its value list, and a nullable cell is
  an `Option` value.

pandas operations are translated pointwise: `groupby` with its default
`sort=True` becomes aggregation over the sorted deduplicated key list,
`Series.value_counts` (default `dropna=True`) becomes `value_counts`,
`Series.mean` over an integer column becomes `seriesMean : List Int → ℚ`,
`pd.merge(..., how=left)` becomes `mergeLeft`, and `pd.to_datetime` on the
ISO `YYYY-MM-DD` dates used by the data becomes `parseDate` applied to every
cell (pandas raises if any cell fails, which `List.mapM` models by returning
`none`).  Exceptions of the source are modelled with `Except`; the
`try/except` handlers of the script are the `match` on that `Except`.
-/

/-- A calendar date, the result of parsing one cell with `pd.to_datetime`. -/
structure Date where
  year : Int
  month : Nat
  day : Nat
deriving DecidableEq, Repr

/-- One decimal digit of a date field. -/
def digitVal? (c : Char) : Option Nat :=
  if decide (('0' : Char) ≤ c) && decide (c ≤ ('9' : Char)) then
    some (c.toNat - ('0' : Char).toNat)
  else
    none

/-- Read a non-empty all-digit group as a number. -/
def digitsToNatAux : List Char → Nat → Option Nat
  | [], acc => some acc
  | c :: cs, acc =>
    match digitVal? c with
    | none => none
    | some d => digitsToNatAux cs (acc * 10 + d)

/-- Read a non-empty all-digit group as a number; the empty group is not a
number. -/
def digitsToNat? : List Char → Option Nat
  | [] => none
  | c :: cs => digitsToNatAux (c :: cs) 0

/-- Split a character list into the groups separated by dashes. -/
def splitOnDash : List Char → List (List Char)
  | [] => [[]]
  | c :: rest =>
    match splitOnDash rest with
    | [] => [[]]
    | g :: gs => if c = '-' then [] :: g :: gs else (c :: g) :: gs

/-- Model of `pd.to_datetime` on one ISO `YYYY-MM-DD` string, the format of
the input
data: split on the dashes, read the three numeric fields, reject an
out-of-range month or day. -/
def parseDate (s : String) : Option Date :=
  match splitOnDash s.toList with
  | [y, m, d] =>
    match digitsToNat? y, digitsToNat? m, digitsToNat? d with
    | some yn, some mn, some dn =>
      if 1 ≤ mn ∧ mn ≤ 12 ∧ 1 ≤ dn ∧ dn ≤ 31 then
        some { year := (yn : Int), month := mn, day := dn }
      else
        none
    | _, _, _ => none
  | _ => none

/-- One row of `deliveries_df`; only the columns read by the analysis steps
(`match_id`, `over`, `total_runs`, `bowler`, `dismissal_kind`) are modelled.
`dismissal_kind` is NaN on balls where no wicket fell, hence an `Option`. -/
structure Delivery where
  match_id : Int
  over : Nat
  total_runs : Int
  bowler : String
  dismissal_kind : Option String
deriving DecidableEq, Repr

/-- The table `matches_df`, column-oriented.  `id_col`, `match_id_col`, `date_col` and
`season_col` may be absent from the csv, hence the outer `Option`; the script
tests their presence with `in matches_df.columns` / `KeyError`.
`date_dt_col` holds the `pd.to_datetime` result (absent until preprocessing
succeeds); `winner_col` and `player_of_match_col` have nullable cells. -/
structure MatchTable where
  id_col : Option (List Int)
  match_id_col : Option (List Int)
  date_col : Option (List String)
  date_dt_col : Option (List Date)
  season_col : Option (List (Option Int))
  winner_col : List (Option String)
  player_of_match_col : List (Option String)
deriving DecidableEq, Repr

/-- Preprocessing, first step (ipl_analysis.py lines 104-106): if `id` is a
column and `match_id` is not, rename `id` to `match_id`; otherwise leave the
table untouched. -/
def renameStep (m : MatchTable) : MatchTable :=
  if m.id_col.isSome ∧ m.match_id_col.isNone then
    { m with match_id_col := m.id_col, id_col := none }
  else
    m

/-- The two exception classes the date-conversion `try` block distinguishes:
`KeyError` when `date` is not a column, any other `Exception` otherwise
(here: some cell fails to parse). -/
inductive PPError where
  | keyError
  | parseError
deriving DecidableEq, Repr

/-- The body of the date-conversion `try` block (lines 110-114):
`matches_df[date] = pd.to_datetime(matches_df[date])` followed by
`matches_df[season] = matches_df[date].dt.year`.  Raises `keyError` when the
`date` column is absent and `parseError` when any cell fails to parse
(pandas converts a column all-or-nothing with its default errors=raise).
On success the recomputed `season` overwrites any existing `season` column. -/
def toDatetimeAndSeason (m : MatchTable) : Except PPError MatchTable :=
  match m.date_col with
  | none => .error .keyError
  | some ds =>
    match ds.mapM parseDate with
    | none => .error .parseError
    | some dates =>
      .ok { m with
            date_dt_col := some dates,
            season_col := some (dates.map (fun d => some d.year)) }

/-- Lines 109-118: the date-conversion `try` block together with its two
`except` handlers, which log a warning and leave the table untouched. -/
def preprocessDates (m : MatchTable) : MatchTable × List String :=
  match toDatetimeAndSeason m with
  | .ok m2 =>
    (m2, ["Converted date column to datetime objects.",
          "Extracted/Updated season column from date."])
  | .error .keyError =>
    (m, ["Warning: date column not found in matches_df during conversion."])
  | .error .parseError =>
    (m, ["Warning: Could not convert date column or extract season"])

/-- The whole preprocessing pass of Phase 2 (rename, then date conversion),
returning the updated table and the log lines it printed. -/
def preprocess (m : MatchTable) : MatchTable × List String :=
  preprocessDates (renameStep m)

/-- A `groupby` with its default `sort=True` lists each key once, in ascending
order: deduplicate, then insertion-sort. -/
def sortedKeys {α : Type} [DecidableEq α] [LinearOrder α] (l : List α) : List α :=
  (l.dedup).insertionSort (fun a b => a ≤ b)

/-- Model of `Series.mean` on an integer column, as an exact rational. -/
def seriesMean (l : List Int) : ℚ :=
  ((l.sum : ℚ)) / ((l.length : ℚ))

/-- Model of `Series.value_counts(dropna)` on a nullable string column: one entry per
distinct value (NaN keys dropped when `dropna` is true, pandas defaults to
true), paired with its number of occurrences, sorted by count descending. -/
def value_counts (dropna : Bool) (col : List (Option String)) :
    List (Option String × Nat) :=
  let base := if dropna then col.filter (fun x => x.isSome) else col
  ((base.dedup).map (fun k => (k, base.count k))).insertionSort
    (fun a b => b.2 ≤ a.2)

/-- Step 3 (line 165): `matches_df[winner].value_counts().dropna().head(10)`.
`value_counts` already uses its default `dropna=True`; the subsequent
`.dropna()` acts on the count values, which are integers and never NaN, so it
keeps every entry. -/
def top_winners (winner_col : List (Option String)) :
    List (Option String × Nat) :=
  (value_counts true winner_col).take 10

/-- Step 6 (lines 209-213): if `player_of_match` has any NaN, print a note
and count the column with the NaNs dropped first; otherwise count it
directly. -/
def pom_counts (player_of_match_col : List (Option String)) :
    List (Option String × Nat) :=
  if player_of_match_col.any (fun x => x.isNone) then
    value_counts true (player_of_match_col.filter (fun x => x.isSome))
  else
    value_counts true player_of_match_col

/-- Line 227: the fixed list of dismissal kinds credited to the bowler. -/
def dismissal_types_for_bowler : List String :=
  ["caught", "bowled", "lbw", "stumped", "caught and bowled", "hit wicket"]

/-- Model of `Series.isin` on the nullable `dismissal_kind` cell: NaN is in no list. -/
def isinDismissal (k : Option String) : Bool :=
  match k with
  | some s => dismissal_types_for_bowler.contains s
  | none => false

/-- Step 7 (line 228): `deliveries_df[deliveries_df[dismissal_kind].isin(...)]`. -/
def wickets_df (dels : List Delivery) : List Delivery :=
  dels.filter (fun d => isinDismissal d.dismissal_kind)

/-- Step 7 (line 229), the value the groupby assigns to one bowler:
`wickets_df.groupby(bowler)[dismissal_kind].count()` counts the non-null
`dismissal_kind` cells among the rows of that bowler in `wickets_df`. -/
def bowlerWicketCount (dels : List Delivery) (b : String) : Nat :=
  (((wickets_df dels).filter (fun d => d.bowler = b)).filter
    (fun d => d.dismissal_kind.isSome)).length

/-- Step 8 (line 246): `deliveries_df.groupby(over)[total_runs].mean() * 6`,
one `(over, rate)` point per over number present, overs ascending. -/
def avg_runs_per_over (dels : List Delivery) : List (Nat × ℚ) :=
  (sortedKeys (dels.map (fun d => d.over))).map (fun o =>
    (o, seriesMean (((dels.filter (fun d => d.over = o)).map
          (fun d => d.total_runs))) * 6))

/-- Step 10 (line 279): `deliveries_df.groupby(match_id)[total_runs].sum()`,
one `(match_id, sum)` row per match present in the deliveries. -/
def total_runs_per_match (dels : List Delivery) : List (Int × Int) :=
  (sortedKeys (dels.map (fun d => d.match_id))).map (fun k =>
    (k, ((dels.filter (fun d => d.match_id = k)).map
          (fun d => d.total_runs)).sum))

/-- Model of `pd.merge(left, right, on=match_id, how=left)` for step 10: every left
row `(match_id, total_runs)` paired with the `season` of each right row
`(match_id, season)` sharing its key, or with NaN when no right row does. -/
def mergeLeft (left : List (Int × Int)) (right : List (Int × Option Int)) :
    List (Int × Int × Option Int) :=
  left.flatMap (fun l =>
    let ms := right.filter (fun r => r.1 = l.1)
    if ms.isEmpty then [(l.1, l.2, none)]
    else ms.map (fun r => (l.1, l.2, r.2)))

/-- The outcome of step 10: either the charted `(season, average)` series or
a skip with the printed reason. -/
inductive Step10Result where
  | charted (data : List (Int × ℚ))
  | skipped (reason : String)
deriving DecidableEq, Repr

/-- The reason printed at line 301 when `season` is not a column. -/
def noSeasonColumnMsg : String :=
  "Could not perform average score per season analysis (season column not found in matches_df)."

/-- The reason printed at line 299 when `season` is entirely null after the
merge. -/
def seasonNullAfterMergeMsg : String :=
  "Could not perform average score per season analysis (missing season column data after merge)."

/-- Step 10 (lines 279-301): sum `total_runs` per `match_id`, left-join onto
`matches_df[[match_id, season]]`, and chart the mean per season — guarded by
the two skip conditions of the source.  Selecting `matches_df[[match_id,
season]]` raises a `KeyError` when `match_id` is not a column (the guard only
checks `season`); the two columns of one table have equal length, so `zip`
pairs them row by row. -/
def step10 (dels : List Delivery) (m : MatchTable) :
    Except String Step10Result :=
  let trpm := total_runs_per_match dels
  match m.season_col with
  | none => .ok (.skipped noSeasonColumnMsg)
  | some seasons =>
    match m.match_id_col with
    | none => .error "KeyError: match_id"
    | some mids =>
      let merged := mergeLeft trpm (mids.zip seasons)
      if merged.all (fun r => r.2.2 = none) then
        .ok (.skipped seasonNullAfterMergeMsg)
      else
        .ok (.charted ((sortedKeys (merged.filterMap (fun r => r.2.2))).map
          (fun s => (s, seriesMean ((merged.filter
            (fun r => r.2.2 = some s)).map (fun r => r.2.1))))))

/-- The outcome of one `pd.read_csv` call, as the loader observes it:
the parsed table, a `FileNotFoundError`, or any other exception. -/
inductive ReadResult (α : Type) where
  | ok (table : α)
  | notFound
  | otherError (msg : String)
deriving DecidableEq, Repr

/-- The environment of one invocation: what reading each csv would yield,
the script directory and the current working directory. -/
structure LoadEnv where
  readDeliveries : ReadResult (List Delivery)
  readMatches : ReadResult MatchTable
  scriptDir : String
  cwd : String

/-- Line 42: `os.path.join(script_dir, deliveries.csv)`. -/
def deliveriesPath (scriptDir : String) : String :=
  scriptDir ++ "/deliveries.csv"

/-- Line 43: `os.path.join(script_dir, matches.csv)`. -/
def matchesPath (scriptDir : String) : String :=
  scriptDir ++ "/matches.csv"

/-- Lines 45-46, printed before the `try` block. -/
def attemptLines (scriptDir : String) : List String :=
  ["Attempting to load deliveries from: " ++ deliveriesPath scriptDir,
   "Attempting to load matches from: " ++ matchesPath scriptDir]

/-- Lines 54-57: the `FileNotFoundError` diagnostic, naming the two expected
file names, the directory they must be in, and the current working
directory. -/
def fileNotFoundDiag (scriptDir cwd : String) : List String :=
  ["--- ERROR ---",
   "Could not find deliveries.csv or matches.csv at the expected paths.",
   "Please ensure both files exist in the directory: " ++ scriptDir,
   "Your current working directory is: " ++ cwd]

/-- Lines 60-61: the generic load-failure diagnostic with the underlying
error message. -/
def otherErrorDiag (msg : String) : List String :=
  ["--- ERROR ---",
   "An unexpected error occurred during file loading: " ++ msg]

/-- The observable result of one invocation: `exit()` inside an `except`
handler of the loader (with everything printed so far), or the run reaching the
analysis phase, carrying the preprocessed match table and the step 10
outcome. -/
inductive ProgramResult where
  | exitedEarly (output : List String)
  | completed (output : List String) (m : MatchTable)
      (s10 : Except String Step10Result)

/-- The top of the script (lines 42-62) followed by preprocessing and the
analysis phase: read `deliveries.csv` then `matches.csv` inside one `try`;
either `except` handler prints its diagnostic and calls `exit()` before any
preprocessing or analysis runs. -/
def runProgram (env : LoadEnv) : ProgramResult :=
  let pre := attemptLines env.scriptDir
  match env.readDeliveries with
  | .notFound =>
    .exitedEarly (pre ++ fileNotFoundDiag env.scriptDir env.cwd)
  | .otherError e => .exitedEarly (pre ++ otherErrorDiag e)
  | .ok dels =>
    match env.readMatches with
    | .notFound =>
      .exitedEarly (pre ++ fileNotFoundDiag env.scriptDir env.cwd)
    | .otherError e => .exitedEarly (pre ++ otherErrorDiag e)
    | .ok m =>
      match preprocess m with
      | (m2, logs) => .completed (pre ++ logs) m2 (step10 dels m2)

/-- The 2-row match table of the end-to-end scenario of the spec: raw csv
form, before preprocessing (the csv has an `id` column and no `season`). -/
def scenarioMatches : MatchTable :=
  { id_col := some [1, 2],
    match_id_col := none,
    date_col := some ["2020-04-10", "2020-04-12"],
    date_dt_col := none,
    season_col := none,
    winner_col := [some "A", some "B"],
    player_of_match_col := [some "A1", some "B1"] }

/-- The 3-row delivery table of the end-to-end scenario: two deliveries of
match 1 summing 10 runs, one delivery of match 2 with 6 runs. -/
def scenarioDeliveries : List Delivery :=
  [{ match_id := 1, over := 1, total_runs := 4, bowler := "P",
     dismissal_kind := none },
   { match_id := 1, over := 2, total_runs := 6, bowler := "Q",
     dismissal_kind := some "caught" },
   { match_id := 2, over := 1, total_runs := 6, bowler := "P",
     dismissal_kind := some "run out" }]

/-- A match table carrying both an `id` and a `match_id` column, for the
ambiguous-rename case. -/
def bothIdTable : MatchTable :=
  { scenarioMatches with match_id_col := some [9] }

/-- The scenario table with its `date` column removed and a stale `season`
column, for the missing-date case. -/
def noDateTable : MatchTable :=
  { scenarioMatches with
    date_col := none,
    season_col := some [some 1999, some 1999] }

/-- A match table whose `season` column exists, for the all-null-after-merge
case of step 10. -/
def seasonTable : MatchTable :=
  { scenarioMatches with
    match_id_col := some [1, 2],
    season_col := some [some 2020, some 2020] }

/-- A delivery referencing a match id absent from every match table above,
so the left join yields only a NaN season. -/
def orphanDeliveries : List Delivery :=
  [{ match_id := 5, over := 1, total_runs := 3, bowler := "R",
     dismissal_kind := none }]

/-- A single delivery worth one run, for the singleton-over case of
step 8. -/
def singleRunDelivery (mid : Int) (o : Nat) (b : String)
    (k : Option String) : Delivery :=
  { match_id := mid, over := o, total_runs := 1, bowler := b,
    dismissal_kind := k }

/-- An invocation with both input files missing. -/
def missingEnv : LoadEnv :=
  { readDeliveries := .notFound, readMatches := .notFound,
    scriptDir := "/app", cwd := "/work" }

/-- An invocation where reading the deliveries file raises a non-not-found
error. -/
def badEnv : LoadEnv :=
  { readDeliveries := .otherError "bad csv", readMatches := .notFound,
    scriptDir := "/app", cwd := "/work" }

/-! ## Helper lemmas about preprocessing -/

theorem renameStep_date_col (m : MatchTable) :
    (renameStep m).date_col = m.date_col := by
  unfold renameStep; split <;> rfl

theorem renameStep_season_col (m : MatchTable) :
    (renameStep m).season_col = m.season_col := by
  unfold renameStep; split <;> rfl

/-- The function `preprocessDates` either leaves the table alone (an exception was
caught) or only fills `date_dt_col` and `season_col`. -/
theorem preprocessDates_fst (m : MatchTable) :
    (preprocessDates m).1 = m ∨
    ∃ dates, (preprocessDates m).1 =
      { m with date_dt_col := some dates,
               season_col := some (dates.map (fun d => some d.year)) } := by
  cases hd : m.date_col with
  | none =>
    left
    simp only [preprocessDates, toDatetimeAndSeason, hd]
  | some ds =>
    cases hp : ds.mapM parseDate with
    | none =>
      left
      simp only [preprocessDates, toDatetimeAndSeason, hd, hp]
    | some dates =>
      right
      exact ⟨dates, by
        simp only [preprocessDates, toDatetimeAndSeason, hd, hp]⟩

theorem preprocessDates_id_col (m : MatchTable) :
    (preprocessDates m).1.id_col = m.id_col := by
  rcases preprocessDates_fst m with h | ⟨dates, h⟩ <;> rw [h]

theorem preprocessDates_match_id_col (m : MatchTable) :
    (preprocessDates m).1.match_id_col = m.match_id_col := by
  rcases preprocessDates_fst m with h | ⟨dates, h⟩ <;> rw [h]

/-! ## Claim theorems -/

/-- C2: for every match table whose `date` column is present and fully
parseable, preprocessing recomputes `season` as the calendar year of each
date of each row, whatever `season_col` held before (the statement holds for every
prior value of `m.season_col`, so a pre-existing `season` column is
overwritten). -/
theorem c2_season_is_year_of_date (m : MatchTable) (ds : List String)
    (dates : List Date) (hds : m.date_col = some ds)
    (hp : ds.mapM parseDate = some dates) :
    (preprocess m).1.season_col = some (dates.map (fun d => some d.year)) := by
  have h1 : (renameStep m).date_col = some ds := by
    rw [renameStep_date_col, hds]
  simp only [preprocess, preprocessDates, toDatetimeAndSeason, h1, hp]

/-- Witness for C2 at the concrete scenario table. -/
theorem c2_season_is_year_of_date_witness :
    (preprocess scenarioMatches).1.season_col = some [some 2020, some 2020] :=
  c2_season_is_year_of_date scenarioMatches ["2020-04-10", "2020-04-12"]
    [{ year := 2020, month := 4, day := 10 },
     { year := 2020, month := 4, day := 12 }] rfl rfl

/-- C3: preprocessing renames `id` to `match_id` (same values, `id` gone)
when `id` is a column and `match_id` is not; when both are columns it leaves
both unchanged. -/
theorem c3_rename_id_to_match_id (m : MatchTable) :
    (∀ ids, m.id_col = some ids → m.match_id_col = none →
      (preprocess m).1.match_id_col = some ids ∧ (preprocess m).1.id_col = none)
    ∧ (m.id_col.isSome → m.match_id_col.isSome →
      (preprocess m).1.id_col = m.id_col
        ∧ (preprocess m).1.match_id_col = m.match_id_col) := by
  constructor
  · intro ids hid hmid
    have hr : renameStep m =
        { m with match_id_col := some ids, id_col := none } := by
      unfold renameStep
      rw [if_pos ⟨by rw [hid]; rfl, by rw [hmid]; rfl⟩, hid]
    unfold preprocess
    rw [preprocessDates_match_id_col, preprocessDates_id_col, hr]
    exact ⟨rfl, rfl⟩
  · intro hid hmid
    have hr : renameStep m = m := by
      unfold renameStep
      rw [if_neg]
      intro ⟨_, h2⟩
      rw [Option.isNone_iff_eq_none] at h2
      rw [h2] at hmid
      exact Bool.noConfusion hmid
    unfold preprocess
    rw [preprocessDates_match_id_col, preprocessDates_id_col, hr]
    exact ⟨rfl, rfl⟩

/-- Witness for C3: a table with an `id` column and no `match_id` column,
and a table with both. -/
theorem c3_rename_id_to_match_id_witness :
    (preprocess scenarioMatches).1.match_id_col = some [1, 2]
      ∧ (preprocess scenarioMatches).1.id_col = none
      ∧ (preprocess bothIdTable).1.id_col = some [1, 2]
      ∧ (preprocess bothIdTable).1.match_id_col = some [9] := by
  have h1 := (c3_rename_id_to_match_id scenarioMatches).1 [1, 2] rfl rfl
  have h2 := (c3_rename_id_to_match_id bothIdTable).2 rfl rfl
  exact ⟨h1.1, h1.2, h2.1, h2.2⟩

/-- C6: for a match table with no `date` column, the conversion raises a
`KeyError`, the handler catches it (preprocessing is total and returns the
warning instead of failing), and `season_col` is exactly what it was before
preprocessing — absent if it was absent, unchanged otherwise. -/
theorem c6_missing_date_is_caught (m : MatchTable) (h : m.date_col = none) :
    toDatetimeAndSeason (renameStep m) = .error .keyError
    ∧ (preprocess m).1.season_col = m.season_col
    ∧ "Warning: date column not found in matches_df during conversion."
        ∈ (preprocess m).2 := by
  have h1 : (renameStep m).date_col = none := by rw [renameStep_date_col, h]
  have h2 : toDatetimeAndSeason (renameStep m) = .error .keyError := by
    simp only [toDatetimeAndSeason, h1]
  refine ⟨h2, ?_, ?_⟩
  · simp only [preprocess, preprocessDates, h2, renameStep_season_col]
  · simp only [preprocess, preprocessDates, h2]
    exact List.mem_singleton.mpr rfl

/-- Witness for C6 at a concrete table lacking `date` but having a prior
`season` column, which stays untouched. -/
theorem c6_missing_date_is_caught_witness :
    toDatetimeAndSeason (renameStep noDateTable) = .error .keyError
    ∧ (preprocess noDateTable).1.season_col = some [some 1999, some 1999]
    ∧ "Warning: date column not found in matches_df during conversion."
        ∈ (preprocess noDateTable).2 :=
  c6_missing_date_is_caught noDateTable rfl

/-- Unfolding of `value_counts` with `dropna` fixed to its pandas default, the ifs
computed away. -/
theorem value_counts_true_def (col : List (Option String)) :
    value_counts true col = (((col.filter (fun x => x.isSome)).dedup).map
      (fun k => (k, (col.filter (fun x => x.isSome)).count k))).insertionSort
        (fun a b => b.2 ≤ a.2) := rfl

/-- Dropping the NaN cells of a column before `value_counts` changes
nothing, since `value_counts` already drops them. -/
theorem value_counts_filter_isSome (col : List (Option String)) :
    value_counts true (col.filter (fun x => x.isSome))
      = value_counts true col := by
  have hb : (col.filter (fun x => x.isSome)).filter (fun x => x.isSome)
      = col.filter (fun x => x.isSome) := by
    rw [List.filter_filter]
    exact List.filter_congr fun x _ => Bool.and_self _
  rw [value_counts_true_def, value_counts_true_def, hb]

/-- C4: the wicket count step 7 assigns to a bowler is exactly the number of
delivery rows bowled by that bowler whose dismissal kind belongs to the
fixed six-element list; rows with any other dismissal kind (run out, retired
hurt, a NaN cell) are excluded. -/
theorem c4_bowler_wicket_count (dels : List Delivery) (b : String) :
    bowlerWicketCount dels b = (dels.filter (fun d =>
      decide (d.bowler = b ∧ d.dismissal_kind ∈
        dismissal_types_for_bowler.map (fun s => some s)))).length := by
  unfold bowlerWicketCount wickets_df
  rw [List.filter_filter, List.filter_filter]
  congr 1
  apply List.filter_congr
  intro d _
  cases hk : d.dismissal_kind with
  | none => simp [hk, isinDismissal]
  | some s =>
    simp only [hk, isinDismissal, Option.isSome_some, Bool.true_and]
    rw [Bool.eq_iff_iff, Bool.and_eq_true, decide_eq_true_iff,
      decide_eq_true_iff]
    constructor
    · intro ⟨h1, h2⟩
      exact ⟨h1, List.mem_map.mpr ⟨s, List.elem_iff.mp h2, rfl⟩⟩
    · intro ⟨h1, h2⟩
      rcases List.mem_map.mp h2 with ⟨s2, hs2, he⟩
      cases Option.some.inj he
      exact ⟨h1, List.elem_iff.mpr hs2⟩

/-- C9: no entry of the step-3 top-winners aggregation has a null winner,
whatever the source column holds. -/
theorem c9_top_winners_no_null (col : List (Option String))
    (kc : Option String × Nat) (h : kc ∈ top_winners col) : kc.1 ≠ none := by
  unfold top_winners at h
  have h1 := List.mem_of_mem_take h
  rw [value_counts_true_def] at h1
  have h2 := (List.perm_insertionSort _ _).mem_iff.mp h1
  rcases List.mem_map.mp h2 with ⟨k, hk, heq⟩
  have hk2 : k ∈ col.filter (fun x => x.isSome) := List.mem_dedup.mp hk
  have hk3 : k.isSome := (List.mem_filter.mp hk2).2
  rw [← heq]
  exact Option.ne_none_iff_isSome.mpr hk3

/-- Witness for C9 on a column with a null winner: the sole aggregated entry
has a non-null key. -/
theorem c9_top_winners_no_null_witness :
    ((some "A", 1) : Option String × Nat).1 ≠ none :=
  c9_top_winners_no_null [some "A", none] (some "A", 1) (by decide)

/-- C10: the two branches of step 6 agree — whether or not
`player_of_match` holds NaN cells, `pom_counts` is the plain value count of
the column (the branch only changes the printed note), and each entry of it
counts the occurrences of its non-null player. -/
theorem c10_pom_counts_branches_agree (col : List (Option String)) :
    pom_counts col = value_counts true col
    ∧ ∀ k c, (some k, c) ∈ pom_counts col → c = col.count (some k) := by
  have hmain : pom_counts col = value_counts true col := by
    unfold pom_counts
    split
    · exact value_counts_filter_isSome col
    · rfl
  refine ⟨hmain, ?_⟩
  intro k c hmem
  rw [hmain, value_counts_true_def] at hmem
  have h2 := (List.perm_insertionSort _ _).mem_iff.mp hmem
  rcases List.mem_map.mp h2 with ⟨k', hk', heq⟩
  injection heq with e1 e2
  subst e1
  rw [← e2]
  exact List.count_filter rfl

/-- Witness for C10 on a column with a NaN cell. -/
theorem c10_pom_counts_branches_agree_witness :
    (2 : Nat) = ([some "A", none, some "A"] :
      List (Option String)).count (some "A") :=
  (c10_pom_counts_branches_agree [some "A", none, some "A"]).2 "A" 2
    (by decide)

/-- Membership survives the sorted deduplication a `groupby` performs on its
keys. -/
theorem mem_sortedKeys {α : Type} [DecidableEq α] [LinearOrder α]
    (l : List α) (a : α) : a ∈ sortedKeys l ↔ a ∈ l := by
  unfold sortedKeys
  rw [(List.perm_insertionSort _ _).mem_iff, List.mem_dedup]

/-- C5: every over number present in the deliveries gets the point
`mean of its total_runs, times 6` in the step-8 chart, and an over recorded
by one single delivery of `total_runs = 1` gets exactly 6. -/
theorem c5_avg_runs_per_over (dels : List Delivery) :
    (∀ o, o ∈ dels.map (fun d => d.over) →
      (o, seriesMean ((dels.filter (fun d => d.over = o)).map
        (fun d => d.total_runs)) * 6) ∈ avg_runs_per_over dels)
    ∧ ∀ (mid : Int) (o : Nat) (b : String) (k : Option String),
        avg_runs_per_over [singleRunDelivery mid o b k] = [(o, 6)] := by
  constructor
  · intro o ho
    unfold avg_runs_per_over
    exact List.mem_map.mpr ⟨o, (mem_sortedKeys _ _).mpr ho, rfl⟩
  · intro mid o b k
    have h1 : sortedKeys ([singleRunDelivery mid o b k].map
        (fun d => d.over)) = [o] := by
      simp [sortedKeys, singleRunDelivery]
    unfold avg_runs_per_over
    rw [h1]
    norm_num [seriesMean, singleRunDelivery, List.filter]

/-- Witness for C5: over 1 of the scenario deliveries gets its mean times
6. -/
theorem c5_avg_runs_per_over_witness :
    ((1 : Nat), seriesMean ((scenarioDeliveries.filter
      (fun d => d.over = 1)).map (fun d => d.total_runs)) * 6)
        ∈ avg_runs_per_over scenarioDeliveries :=
  (c5_avg_runs_per_over scenarioDeliveries).1 1 (by decide)

/-- C1: whenever step 10 charts, each charted point is the mean of the
per-match `total_runs` sums over the join rows of its season; and on the
end-to-end scenario (two matches of season 2020 with per-match sums 10 and
6) the charted average for 2020 is exactly 8. -/
theorem c1_avg_score_per_season :
    (∀ (dels : List Delivery) (m : MatchTable) (seasons : List (Option Int))
      (mids : List Int) (data : List (Int × ℚ)),
      m.season_col = some seasons → m.match_id_col = some mids →
      step10 dels m = .ok (.charted data) →
      ∀ p ∈ data, p.2 = seriesMean (((mergeLeft (total_runs_per_match dels)
        (mids.zip seasons)).filter (fun r => r.2.2 = some p.1)).map
          (fun r => r.2.1)))
    ∧ step10 scenarioDeliveries (preprocess scenarioMatches).1
        = .ok (.charted [(2020, 8)]) := by
  constructor
  · intro dels m seasons mids data hs hm hrun p hp
    simp only [step10, hs, hm] at hrun
    split at hrun
    · exact absurd (Except.ok.inj hrun) (by simp)
    · have hdata := Step10Result.charted.inj (Except.ok.inj hrun)
      subst hdata
      rcases List.mem_map.mp hp with ⟨s, hsmem, rfl⟩
      rfl
  · have h : seriesMean [10, 6] = 8 := by norm_num [seriesMean]
    calc step10 scenarioDeliveries (preprocess scenarioMatches).1
        = .ok (.charted [(2020, seriesMean [10, 6])]) := rfl
      _ = .ok (.charted [(2020, 8)]) := by rw [h]

/-- Witness for C1: the charted scenario point for season 2020 is the mean
of the joined per-match sums. -/
theorem c1_avg_score_per_season_witness :
    ((2020 : Int), (8 : ℚ)).2 = seriesMean (((mergeLeft
      (total_runs_per_match scenarioDeliveries)
      (([1, 2] : List Int).zip [some 2020, some 2020])).filter
        (fun r => r.2.2 = some ((2020 : Int), (8 : ℚ)).1)).map
          (fun r => r.2.1)) :=
  c1_avg_score_per_season.1 scenarioDeliveries
    (preprocess scenarioMatches).1 [some 2020, some 2020] [1, 2]
    [(2020, 8)] rfl rfl c1_avg_score_per_season.2 (2020, 8)
    (List.mem_singleton.mpr rfl)

/-- C7: step 10 skips with the logged reason instead of raising, both when
the `season` column is absent and when `season` is entirely null after the
merge. -/
theorem c7_step10_skips (dels : List Delivery) (m : MatchTable) :
    (m.season_col = none →
      step10 dels m = .ok (.skipped noSeasonColumnMsg))
    ∧ (∀ seasons mids, m.season_col = some seasons →
      m.match_id_col = some mids →
      (mergeLeft (total_runs_per_match dels) (mids.zip seasons)).all
        (fun r => r.2.2 = none) = true →
      step10 dels m = .ok (.skipped seasonNullAfterMergeMsg)) := by
  constructor
  · intro h
    simp only [step10, h]
  · intro seasons mids hs hm hall
    simp only [step10, hs, hm]
    rw [if_pos hall]

/-- Witness for C7: the raw scenario table has no `season` column, and the
orphan delivery joins only null seasons. -/
theorem c7_step10_skips_witness :
    step10 scenarioDeliveries scenarioMatches
      = .ok (.skipped noSeasonColumnMsg)
    ∧ step10 orphanDeliveries seasonTable
      = .ok (.skipped seasonNullAfterMergeMsg) :=
  ⟨(c7_step10_skips scenarioDeliveries scenarioMatches).1 rfl,
   (c7_step10_skips orphanDeliveries seasonTable).2
     [some 2020, some 2020] [1, 2] rfl rfl (by decide)⟩

/-- C8: a missing input file makes the run exit inside the loader, before
any preprocessing or analysis, after printing lines naming both expected
paths and (when the failure is the `FileNotFoundError` the source catches)
the directory and the current working directory; any other load error exits
likewise with the underlying message. -/
theorem c8_load_failure_exits (env : LoadEnv) :
    ((env.readDeliveries = .notFound ∨ env.readMatches = .notFound) →
      ∃ out, runProgram env = .exitedEarly out)
    ∧ (env.readDeliveries = .notFound →
      runProgram env = .exitedEarly (attemptLines env.scriptDir ++
        fileNotFoundDiag env.scriptDir env.cwd))
    ∧ (∀ dels, env.readDeliveries = .ok dels →
      env.readMatches = .notFound →
      runProgram env = .exitedEarly (attemptLines env.scriptDir ++
        fileNotFoundDiag env.scriptDir env.cwd))
    ∧ (("Attempting to load deliveries from: "
          ++ deliveriesPath env.scriptDir) ∈ attemptLines env.scriptDir
      ∧ ("Attempting to load matches from: " ++ matchesPath env.scriptDir)
          ∈ attemptLines env.scriptDir
      ∧ ("Your current working directory is: " ++ env.cwd)
          ∈ fileNotFoundDiag env.scriptDir env.cwd)
    ∧ (∀ e, env.readDeliveries = .otherError e →
      runProgram env = .exitedEarly (attemptLines env.scriptDir ++
        otherErrorDiag e))
    ∧ (∀ dels e, env.readDeliveries = .ok dels →
      env.readMatches = .otherError e →
      runProgram env = .exitedEarly (attemptLines env.scriptDir ++
        otherErrorDiag e)) := by
  refine ⟨?_, ?_, ?_, ⟨?_, ?_, ?_⟩, ?_, ?_⟩
  · intro h
    cases hd : env.readDeliveries with
    | notFound =>
      exact ⟨_, by unfold runProgram; rw [hd]⟩
    | otherError e =>
      exact ⟨_, by unfold runProgram; rw [hd]⟩
    | ok dels =>
      cases hm : env.readMatches with
      | notFound =>
        exact ⟨_, by unfold runProgram; rw [hd, hm]⟩
      | otherError e =>
        exact ⟨_, by unfold runProgram; rw [hd, hm]⟩
      | ok m =>
        rcases h with h | h
        · rw [hd] at h; exact absurd h (by simp)
        · rw [hm] at h; exact absurd h (by simp)
  · intro h
    unfold runProgram; rw [h]
  · intro dels hd hm
    unfold runProgram; rw [hd, hm]
  · simp [attemptLines]
  · simp [attemptLines]
  · simp [fileNotFoundDiag]
  · intro e h
    unfold runProgram; rw [h]
  · intro dels e hd hm
    unfold runProgram; rw [hd, hm]

/-- Witness for C8: both files missing exits with the not-found diagnostic;
an unreadable deliveries file exits with the generic diagnostic. -/
theorem c8_load_failure_exits_witness :
    (∃ out, runProgram missingEnv = .exitedEarly out)
    ∧ runProgram missingEnv = .exitedEarly (attemptLines "/app" ++
        fileNotFoundDiag "/app" "/work")
    ∧ runProgram badEnv = .exitedEarly (attemptLines "/app" ++
        otherErrorDiag "bad csv") :=
  ⟨(c8_load_failure_exits missingEnv).1 (Or.inl rfl),
   (c8_load_failure_exits missingEnv).2.1 rfl,
   (c8_load_failure_exits badEnv).2.2.2.2.1 "bad csv" rfl⟩
